import Mathlib

/-!
Shallow embedding of the two scripts of this repository,
`src/org/pyhon.py` (namespace `OrgScript`) and `src/repo/python.py`
(namespace `RepoScript`), together with theorems about the batch
dispatcher (`process_repo`), the single-operation logic
(`create_junk_file`) and the retry coordinator (the global retry loop
of `main`).

Modelling conventions:

* Remote calls (`repo.create_file`, `repo.get_contents`,
  `repo.update_file`, `org.create_repo`) are external collaborators.
  Their behaviour for one `create_junk_file` attempt is an oracle value
  `AttemptSpec`; each field gives the outcome of the corresponding call,
  either a returned value (`Except.ok`) or a raised Python exception
  (`Except.error`).
* Python exceptions are the type `PyErr`: `gh status` stands for a
  `GithubException` with the given `.status`; `generic b` stands for any
  other exception, `b` recording whether the substring `"403"` occurs in
  `str(err)`; `valueError` is the `ValueError` raised by
  `ThreadPoolExecutor` when `max_workers` is `0`.
* Every function returns, next to its value, a trace of events
  (`List Ev`): the remote calls it performed and the `time.sleep` calls
  it made, in order.  Thread pools are modelled sequentially in
  submission order (the scripts derive no result from completion order);
  a trace is the sequence of calls whose outcomes the collecting loop
  observed.
* A Python function that can let an exception escape returns
  `Except PyErr _`; a function whose body is wrapped in a catch-all
  `except Exception` handler returns a plain value.
* Repository handles are opaque `Nat` ids; the random file content is
  irrelevant to all control flow and is not recorded in events.
-/

instance {ε α : Type} [DecidableEq ε] [DecidableEq α] : DecidableEq (Except ε α)
  | .ok a, .ok b =>
    if h : a = b then .isTrue (by rw [h]) else .isFalse (by simp [h])
  | .ok _, .error _ => .isFalse (by simp)
  | .error _, .ok _ => .isFalse (by simp)
  | .error e, .error e2 =>
    if h : e = e2 then .isTrue (by rw [h]) else .isFalse (by simp [h])

/-- A raised Python exception, as far as the scripts discriminate. -/
inductive PyErr where
  | gh (status : Nat)
  | generic (msgHas403 : Bool)
  | valueError
deriving DecidableEq

/-- Whether an exception is caught by an `except GithubException` clause. -/
def PyErr.isGithub : PyErr → Bool
  | .gh _ => true
  | _ => false

/-- Oracle for the remote calls of one `create_junk_file` attempt:
the outcome of `repo.create_file`, of `repo.get_contents` (its value is
the `sha` version token of the existing file) and of `repo.update_file`. -/
structure AttemptSpec where
  createRes : Except PyErr Unit
  getRes : Except PyErr String
  updateRes : Except PyErr Unit

/-- Observable events: the remote calls and the `time.sleep` calls. -/
inductive Ev where
  | createRepoCall (name : String)
  | createCall (repo : Nat) (path : String)
  | getCall (repo : Nat) (path : String)
  | updateCall (repo : Nat) (path : String) (sha : String)
  | sleep (seconds : Nat)
deriving DecidableEq

/-- The failure record `(repo, file_index, file_size)` that
`create_junk_file` of `src/org/pyhon.py` returns on failure. -/
structure JTask where
  repo : Nat
  file_index : Nat
  file_size : Nat
deriving DecidableEq

/-- Return value of `OrgScript.create_junk_file`: Python `True`, or the
`(repo, file_index, file_size)` tuple. -/
inductive CjfResult where
  | success
  | failed (t : JTask)
deriving DecidableEq

/-- The key/value configuration read from `config.txt`. -/
def Config : Type := List (String × String)

/-- Python `dict.get(key, default)` on the configuration. -/
def Config.get (config : Config) (key dflt : String) : String :=
  match config.find? (fun p => p.1 = key) with
  | some p => p.2
  | none => dflt

/-- The file name built by `create_junk_file` in both scripts from the
FILE_NAME_PREFIX setting, the file index and the FILE_EXTENSION setting. -/
def junk_file_name (config : Config) (file_index : Nat) : String :=
  Config.get config "FILE_NAME_PREFIX" "junk-" ++ toString file_index ++ "."
    ++ Config.get config "FILE_EXTENSION" "txt"

/-- The repository name built by `process_repo` of `src/org/pyhon.py` from
the REPO_NAME_PREFIX setting and the repository index. -/
def repo_name (config : Config) (repo_index : Nat) : String :=
  Config.get config "REPO_NAME_PREFIX" "junk-repo-" ++ toString repo_index

namespace OrgScript

/-- Constant `MAX_RETRIES` of `src/org/pyhon.py` (the spec calls it MAX_ROUNDS). -/
def MAX_RETRIES : Nat := 3

/-- Constant `RETRY_DELAY` of `src/org/pyhon.py` (called INTER_ROUND_DELAY in the spec). -/
def RETRY_DELAY : Nat := 5

/-- Constant `RATE_LIMIT_DELAY` of `src/org/pyhon.py`. -/
def RATE_LIMIT_DELAY : Nat := 60

/-- Function `create_junk_file(repo, file_index, file_size, config)` of
`src/org/pyhon.py`.  The outer `try` attempts `repo.create_file`; a
`GithubException` is dispatched on its status (`409`: one compensating
`get_contents` + `update_file` under an inner `try` that catches only
`GithubException`, so a non-`GithubException` raised there propagates;
`403`: `time.sleep(RATE_LIMIT_DELAY)` then return the tuple; otherwise
return the tuple); any other exception is dispatched on whether
`"403" in str(err)` (sleep then tuple, or just the tuple). -/
def create_junk_file (a : AttemptSpec) (repo file_index file_size : Nat)
    (config : Config) : List Ev × Except PyErr CjfResult :=
  let file_name := junk_file_name config file_index
  match a.createRes with
  | .ok _ => ([.createCall repo file_name], .ok .success)
  | .error (.gh status) =>
    if status = 409 then
      match a.getRes with
      | .ok sha =>
        match a.updateRes with
        | .ok _ =>
          ([.createCall repo file_name, .getCall repo file_name,
            .updateCall repo file_name sha], .ok .success)
        | .error e =>
          if e.isGithub then
            ([.createCall repo file_name, .getCall repo file_name,
              .updateCall repo file_name sha],
             .ok (.failed ⟨repo, file_index, file_size⟩))
          else
            ([.createCall repo file_name, .getCall repo file_name,
              .updateCall repo file_name sha], .error e)
      | .error e =>
        if e.isGithub then
          ([.createCall repo file_name, .getCall repo file_name],
           .ok (.failed ⟨repo, file_index, file_size⟩))
        else
          ([.createCall repo file_name, .getCall repo file_name], .error e)
    else if status = 403 then
      ([.createCall repo file_name, .sleep RATE_LIMIT_DELAY],
       .ok (.failed ⟨repo, file_index, file_size⟩))
    else
      ([.createCall repo file_name], .ok (.failed ⟨repo, file_index, file_size⟩))
  | .error (.generic msgHas403) =>
    if msgHas403 then
      ([.createCall repo file_name, .sleep RATE_LIMIT_DELAY],
       .ok (.failed ⟨repo, file_index, file_size⟩))
    else
      ([.createCall repo file_name], .ok (.failed ⟨repo, file_index, file_size⟩))
  | .error .valueError =>
    ([.createCall repo file_name], .ok (.failed ⟨repo, file_index, file_size⟩))

/-- Environment of one `process_repo` call: the outcome of
`org.create_repo` (a repository handle or a raised exception) and the
remote behaviour of the file attempt with each index. -/
structure RepoEnv where
  createRepoRes : Except PyErr Nat
  attempt : Nat → AttemptSpec

/-- Worker count `max_workers_files = 1 if slow_mode else num_files` of `process_repo`. -/
def max_workers_files (slow_mode : Bool) (num_files : Nat) : Nat :=
  if slow_mode then 1 else num_files

/-- The collection loop of `process_repo` over the submitted file tasks
(modelled in submission order, indices `1..num_files`).  Each observed
result that is not `True` is appended to `failed_files`; in slow mode a
`time.sleep(1)` follows each observed result.  If `future.result()`
re-raises, the loop stops: the third component is the escaped exception,
and the failures collected so far are kept. -/
def run_files (env : RepoEnv) (rh file_size : Nat) (config : Config)
    (slow_mode : Bool) : List Nat → List Ev × List JTask × Option PyErr
  | [] => ([], [], none)
  | i :: rest =>
    match create_junk_file (env.attempt i) rh i file_size config with
    | (ev, .error e) => (ev, [], some e)
    | (ev, .ok res) =>
      let tail := run_files env rh file_size config slow_mode rest
      (ev ++ (if slow_mode then [Ev.sleep 1] else []) ++ tail.1,
       (match res with | .success => [] | .failed t => [t]) ++ tail.2.1,
       tail.2.2)

/-- Function `process_repo(repo_index, num_files, file_size, org, config, slow_mode)`
of `src/org/pyhon.py`.  Everything after `failed_files = []` sits under a
catch-all `except Exception` handler and `return failed_files` follows it,
so `process_repo` always returns the failures collected so far: if
`org.create_repo` raises, or `ThreadPoolExecutor(max_workers=0)` raises
`ValueError` (fast mode with `num_files = 0`), or a file future re-raises,
the exception is caught (logged) and the current `failed_files` is
returned. -/
def process_repo (repo_index num_files file_size : Nat) (env : RepoEnv)
    (config : Config) (slow_mode : Bool) : List Ev × List JTask :=
  let rn := repo_name config repo_index
  match env.createRepoRes with
  | .error _ => ([.createRepoCall rn], [])
  | .ok rh =>
    if max_workers_files slow_mode num_files = 0 then ([.createRepoCall rn], [])
    else
      let r := run_files env rh file_size config slow_mode
        (List.range' 1 num_files)
      (.createRepoCall rn :: r.1, r.2.1)

/-- The loop body of `retry_failed_files` of `src/org/pyhon.py`, with `k`
the position of the current task in the list (the oracle `specs` assigns a
remote behaviour to each position).  In slow mode a `time.sleep(1)`
precedes each attempt.  There is no `try` here: an exception raised by
`create_junk_file` propagates and the `new_failures` collected so far are
lost. -/
def retry_go (specs : Nat → AttemptSpec) (config : Config) (slow_mode : Bool) :
    Nat → List JTask → List Ev × Except PyErr (List JTask)
  | _, [] => ([], .ok [])
  | k, t :: rest =>
    let slowEv := if slow_mode then [Ev.sleep 1] else []
    match create_junk_file (specs k) t.repo t.file_index t.file_size config with
    | (ev, .error e) => (slowEv ++ ev, .error e)
    | (ev, .ok res) =>
      match retry_go specs config slow_mode (k + 1) rest with
      | (ev2, .error e) => (slowEv ++ ev ++ ev2, .error e)
      | (ev2, .ok ns) =>
        (slowEv ++ ev ++ ev2,
         .ok ((match res with | .success => [] | .failed t2 => [t2]) ++ ns))

/-- Function `retry_failed_files(failed_tasks, config, slow_mode)` of
`src/org/pyhon.py`: a plain sequential `for` loop over the failed tasks. -/
def retry_failed_files (specs : Nat → AttemptSpec) (failed_tasks : List JTask)
    (config : Config) (slow_mode : Bool) : List Ev × Except PyErr (List JTask) :=
  retry_go specs config slow_mode 0 failed_tasks

/-- Result of the global retry section of `main`:
the failure list left when the loop ends, the failure list produced by
each executed round (in order), and the `time.sleep(RETRY_DELAY)` calls
performed at the level of `main` itself (sleeps inside
`retry_failed_files` belong to the trace of that function itself). -/
structure RetryOutcome where
  remaining : List JTask
  rounds : List (List JTask)
  sleeps : List Nat
deriving DecidableEq

/-- The `for attempt in range(MAX_RETRIES)` loop of `main`, with `fuel`
the number of iterations left and `attempt` the current iteration index
(the oracle `specs` assigns remote behaviours per round and position).
Each iteration replaces the failure list with the result of
`retry_failed_files`; on an empty result it `break`s, otherwise it
sleeps `RETRY_DELAY` and continues.  An exception escaping
`retry_failed_files` propagates (there is no `try` around the loop). -/
def main_retry_go (specs : Nat → Nat → AttemptSpec) (config : Config)
    (slow_mode : Bool) :
    Nat → Nat → List JTask → List Nat → List (List JTask) →
      Except PyErr RetryOutcome
  | 0, _, fs, sleeps, hist => .ok ⟨fs, hist, sleeps⟩
  | fuel + 1, attempt, fs, sleeps, hist =>
    match (retry_failed_files (specs attempt) fs config slow_mode).2 with
    | .error e => .error e
    | .ok fs2 =>
      if fs2 = [] then .ok ⟨fs2, hist ++ [fs2], sleeps⟩
      else
        main_retry_go specs config slow_mode fuel (attempt + 1) fs2
          (sleeps ++ [RETRY_DELAY]) (hist ++ [fs2])

/-- The global retry section of `main` of `src/org/pyhon.py`
(`if global_failed_files:` onwards): with an empty incoming list nothing
happens; otherwise `main` sleeps `RETRY_DELAY` once and runs the retry
loop for up to `MAX_RETRIES` rounds.  The terminal report of permanently
failed files is a print of `remaining`, not an exception. -/
def main_retry (specs : Nat → Nat → AttemptSpec) (config : Config)
    (slow_mode : Bool) (global_failed_files : List JTask) :
    Except PyErr RetryOutcome :=
  if global_failed_files = [] then .ok ⟨[], [], []⟩
  else
    main_retry_go specs config slow_mode MAX_RETRIES 0 global_failed_files
      [RETRY_DELAY] []

end OrgScript

namespace RepoScript

/-- Function `create_junk_file(repo, file_index, file_size, config)` of
`src/repo/python.py`.  Differences from the org script: the `403` branch
sleeps 60 seconds and then performs the compensating
`get_contents` + `update_file` inline (under an inner `try` catching only
`GithubException`); the function returns `None` in every handled case
(there is no failure tuple); there is no `except Exception` handler, so
any non-`GithubException` raised by `repo.create_file` propagates. -/
def create_junk_file (a : AttemptSpec) (repo file_index file_size : Nat)
    (config : Config) : List Ev × Except PyErr Unit :=
  let file_name := junk_file_name config file_index
  match a.createRes with
  | .ok _ => ([.createCall repo file_name], .ok ())
  | .error (.gh status) =>
    if status = 409 then
      match a.getRes with
      | .ok sha =>
        match a.updateRes with
        | .ok _ =>
          ([.createCall repo file_name, .getCall repo file_name,
            .updateCall repo file_name sha], .ok ())
        | .error e =>
          if e.isGithub then
            ([.createCall repo file_name, .getCall repo file_name,
              .updateCall repo file_name sha], .ok ())
          else
            ([.createCall repo file_name, .getCall repo file_name,
              .updateCall repo file_name sha], .error e)
      | .error e =>
        if e.isGithub then
          ([.createCall repo file_name, .getCall repo file_name], .ok ())
        else
          ([.createCall repo file_name, .getCall repo file_name], .error e)
    else if status = 403 then
      match a.getRes with
      | .ok sha =>
        match a.updateRes with
        | .ok _ =>
          ([.createCall repo file_name, .sleep 60, .getCall repo file_name,
            .updateCall repo file_name sha], .ok ())
        | .error e =>
          if e.isGithub then
            ([.createCall repo file_name, .sleep 60, .getCall repo file_name,
              .updateCall repo file_name sha], .ok ())
          else
            ([.createCall repo file_name, .sleep 60, .getCall repo file_name,
              .updateCall repo file_name sha], .error e)
      | .error e =>
        if e.isGithub then
          ([.createCall repo file_name, .sleep 60, .getCall repo file_name],
           .ok ())
        else
          ([.createCall repo file_name, .sleep 60, .getCall repo file_name],
           .error e)
    else ([.createCall repo file_name], .ok ())
  | .error e => ([.createCall repo file_name], .error e)

/-- Worker count `max_workers = 1 if slow_mode else num_files` of `main` of
`src/repo/python.py`. -/
def max_workers (slow_mode : Bool) (num_files : Nat) : Nat :=
  if slow_mode then 1 else num_files

/-- The collection loop of `main` of `src/repo/python.py` (modelled in
submission order): each `future.result()` is called under a `try` whose
`except Exception` only prints, so both normal returns and raised
exceptions are swallowed; in slow mode a `time.sleep(1)` follows each
observed future. -/
def files_go (attempt : Nat → AttemptSpec) (rh file_size : Nat)
    (config : Config) (slow_mode : Bool) : List Nat → List Ev
  | [] => []
  | i :: rest =>
    (create_junk_file (attempt i) rh i file_size config).1
      ++ (if slow_mode then [Ev.sleep 1] else [])
      ++ files_go attempt rh file_size config slow_mode rest

/-- The file-dispatch phase of `main` of `src/repo/python.py` (from the
`ThreadPoolExecutor` construction to the end of the collection loop),
given the repository handle obtained earlier.  The
`ThreadPoolExecutor(max_workers=max_workers)` construction sits outside
every `try`, and `ThreadPoolExecutor` raises `ValueError` when
`max_workers` is `0` (fast mode with `num_files = 0`); that exception
propagates out of `main`. -/
def main_files (attempt : Nat → AttemptSpec) (rh num_files file_size : Nat)
    (config : Config) (slow_mode : Bool) : Except PyErr (List Ev) :=
  if max_workers slow_mode num_files = 0 then .error .valueError
  else
    .ok (files_go attempt rh file_size config slow_mode
      (List.range' 1 num_files))

end RepoScript

/-! ## Concrete remote behaviours used as witnesses and counterexamples -/

/-- Remote behaviour: every call succeeds; `get_contents` returns sha `"sha0"`. -/
def attemptOk : AttemptSpec := ⟨.ok (), .ok "sha0", .ok ()⟩

/-- Remote behaviour: `create_file` raises `GithubException` with status 403. -/
def attempt403 : AttemptSpec := ⟨.error (.gh 403), .ok "sha0", .ok ()⟩

/-- Remote behaviour: `create_file` raises `GithubException` with status 500. -/
def attempt500 : AttemptSpec := ⟨.error (.gh 500), .ok "sha0", .ok ()⟩

/-- Remote behaviour: `create_file` raises status 409; the compensating
`update_file` raises a non-`GithubException`. -/
def attempt409updThrows : AttemptSpec :=
  ⟨.error (.gh 409), .ok "sha0", .error (.generic false)⟩

/-- Remote behaviour: `create_file` raises status 409; the compensating
`get_contents` raises a non-`GithubException`. -/
def attempt409getThrows : AttemptSpec :=
  ⟨.error (.gh 409), .error (.generic false), .ok ()⟩

/-- The outcome of the retry loop of the org script on the singleton failure
list `[⟨0,1,1⟩]` when every remote attempt keeps failing with status 500:
three rounds, each returning the same singleton, and four
`time.sleep(RETRY_DELAY)` calls at the level of `main`. -/
def res500 : OrgScript.RetryOutcome :=
  ⟨[⟨0, 1, 1⟩], [[⟨0, 1, 1⟩], [⟨0, 1, 1⟩], [⟨0, 1, 1⟩]], [5, 5, 5, 5]⟩

/-! ## Helper lemmas shared by several claims -/

/-- A non-exceptional return of `create_junk_file` of the org script is
either `True` or exactly the `(repo, file_index, file_size)` tuple it was
asked to attempt. -/
theorem cjf_ok_shape (a : AttemptSpec) (repo file_index file_size : Nat)
    (config : Config) (res : CjfResult)
    (h : (OrgScript.create_junk_file a repo file_index file_size config).2 =
      .ok res) :
    res = .success ∨ res = .failed ⟨repo, file_index, file_size⟩ := by
  obtain ⟨cr, gr, ur⟩ := a
  unfold OrgScript.create_junk_file at h
  dsimp only at h
  cases cr with
  | ok u => simp_all
  | error e =>
    cases e with
    | gh s =>
      by_cases h409 : s = 409
      · subst h409
        cases gr with
        | ok sha =>
          cases ur with
          | ok u2 => simp_all
          | error e3 =>
            dsimp only at h
            rcases hg : e3.isGithub <;> simp_all
        | error e2 =>
          dsimp only at h
          rcases hg : e2.isGithub <;> simp_all
      · by_cases h403 : s = 403 <;> simp_all
    | generic b => rcases b <;> simp_all
    | valueError => simp_all

/-- The function `create_junk_file` of the org script lets an exception escape only
when the create call reported a conflict (status 409) and the
compensating read or update raised a non-`GithubException`. -/
theorem cjf_error_shape (a : AttemptSpec) (repo file_index file_size : Nat)
    (config : Config) (e : PyErr)
    (h : (OrgScript.create_junk_file a repo file_index file_size config).2 =
      .error e) :
    a.createRes = .error (.gh 409) ∧ e.isGithub = false := by
  obtain ⟨cr, gr, ur⟩ := a
  unfold OrgScript.create_junk_file at h
  dsimp only at h ⊢
  cases cr with
  | ok u => simp_all
  | error e1 =>
    cases e1 with
    | gh s =>
      by_cases h409 : s = 409
      · subst h409
        cases gr with
        | ok sha =>
          cases ur with
          | ok u2 => simp_all
          | error e3 =>
            dsimp only at h
            rcases hg : e3.isGithub <;> simp_all
        | error e2 =>
          dsimp only at h
          rcases hg : e2.isGithub <;> simp_all
      · by_cases h403 : s = 403 <;> simp_all
    | generic b => rcases b <;> simp_all
    | valueError => simp_all

/-- When the create call succeeds, `create_junk_file` performs exactly
that one remote call and returns `True`. -/
theorem cjf_create_ok (a : AttemptSpec) (repo file_index file_size : Nat)
    (config : Config) (h : a.createRes = .ok ()) :
    OrgScript.create_junk_file a repo file_index file_size config =
      ([.createCall repo (junk_file_name config file_index)], .ok .success) := by
  obtain ⟨cr, gr, ur⟩ := a
  dsimp only at h
  subst h
  rfl

/-! ## Claims -/

/-- Claim C9: for every batch of N ≥ 1 operations, the worker-pool width
used by the dispatcher is 1 in slow mode and N in fast mode, in both
scripts (`max_workers_files` in `process_repo` of the org script,
`max_workers` in `main` of the repo script). -/
theorem c9_worker_pool_width (n : Nat) (h : 1 ≤ n) :
    OrgScript.max_workers_files true n = 1 ∧
    OrgScript.max_workers_files false n = n ∧
    RepoScript.max_workers true n = 1 ∧
    RepoScript.max_workers false n = n := by
  exact ⟨rfl, rfl, rfl, rfl⟩

/-- Witness for `c9_worker_pool_width` at N = 5. -/
theorem c9_worker_pool_width_witness :
    OrgScript.max_workers_files true 5 = 1 ∧
    OrgScript.max_workers_files false 5 = 5 ∧
    RepoScript.max_workers true 5 = 1 ∧
    RepoScript.max_workers false 5 = 5 :=
  c9_worker_pool_width 5 (by decide)

/-- Claim C2 as amended: in the org script every rate-limited/forbidden
classification of the create call (a `GithubException` with status 403,
or any other exception whose text contains "403") makes
`create_junk_file` sleep `RATE_LIMIT_DELAY` = 60 and return the
operation as failed, with no further remote attempt in the same round
(the trace holds the single create call and the sleep, nothing else);
this single-operation logic is the one used by both the dispatcher and
the retry rounds.  In the repo script, however, the 403 handler sleeps
60 seconds and then performs a compensating `get_contents` (and, when
the read succeeds, an `update_file`) within the same call, and returns
no failure value. -/
theorem c2_rate_limit_behaviour :
    (∀ (a : AttemptSpec) (repo file_index file_size : Nat) (config : Config),
      (a.createRes = .error (.gh 403) ∨ a.createRes = .error (.generic true)) →
      OrgScript.create_junk_file a repo file_index file_size config =
        ([.createCall repo (junk_file_name config file_index),
          .sleep OrgScript.RATE_LIMIT_DELAY],
         .ok (.failed ⟨repo, file_index, file_size⟩))) ∧
    (∀ (a : AttemptSpec) (repo file_index file_size : Nat) (config : Config),
      a.createRes = .error (.gh 403) →
      (RepoScript.create_junk_file a repo file_index file_size config).1.take 3 =
        [.createCall repo (junk_file_name config file_index), .sleep 60,
         .getCall repo (junk_file_name config file_index)]) := by
  constructor
  · rintro ⟨cr, gr, ur⟩ repo file_index file_size config (h | h) <;>
      dsimp only at h <;> subst h <;> rfl
  · rintro ⟨cr, gr, ur⟩ repo file_index file_size config h
    dsimp only at h
    subst h
    cases gr with
    | ok sha =>
      cases ur with
      | ok u => rfl
      | error e =>
        unfold RepoScript.create_junk_file
        dsimp only
        rcases hg : e.isGithub <;> simp [hg]
    | error e =>
      unfold RepoScript.create_junk_file
      dsimp only
      rcases hg : e.isGithub <;> simp [hg]

/-- Witness for `c2_rate_limit_behaviour`: the org-script branch at a
concrete 403 attempt. -/
theorem c2_rate_limit_behaviour_witness :
    OrgScript.create_junk_file attempt403 3 1 2 [] =
      ([.createCall 3 (junk_file_name [] 1), .sleep OrgScript.RATE_LIMIT_DELAY],
       .ok (.failed ⟨3, 1, 2⟩)) :=
  c2_rate_limit_behaviour.1 attempt403 3 1 2 [] (Or.inl rfl)

/-- Counterexample to claim C2 as stated: in the repo script (cited by
the claim), an operation whose create call is classified 403 is not
returned as failed with no additional remote attempt in the same round:
after the 60-second sleep the same call performs a compensating
`get_contents` and `update_file`, and it returns `None` rather than a
failure record. -/
theorem c2_counterexample :
    RepoScript.create_junk_file attempt403 0 1 2 [] =
      ([.createCall 0 "junk-1.txt", .sleep 60, .getCall 0 "junk-1.txt",
        .updateCall 0 "junk-1.txt" "sha0"], .ok ()) ∧
    (RepoScript.create_junk_file attempt403 0 1 2 []).1 ≠
      [.createCall 0 "junk-1.txt", .sleep 60] := ⟨rfl, by decide⟩

/-- Claim C3 as amended: when the create call reports a conflict (status
409), the function `create_junk_file` of the org script performs exactly one
compensating read-then-update attempt, passing `update_file` the sha
returned by `get_contents`; if the compensation succeeds the operation
counts as a success, and if the read or the update raises a
`GithubException` the `(repo, file_index, file_size)` record is returned
for the failure list, with no further attempt in that round.  However,
if the read or the update raises a non-`GithubException`, that exception
propagates out of `create_junk_file` and no record is returned. -/
theorem c3_conflict_compensation (a : AttemptSpec)
    (repo file_index file_size : Nat) (config : Config)
    (h : a.createRes = .error (.gh 409)) :
    (∀ sha, a.getRes = .ok sha →
      (a.updateRes = .ok () →
        OrgScript.create_junk_file a repo file_index file_size config =
          ([.createCall repo (junk_file_name config file_index),
            .getCall repo (junk_file_name config file_index),
            .updateCall repo (junk_file_name config file_index) sha],
           .ok .success)) ∧
      (∀ e, a.updateRes = .error e → e.isGithub = true →
        OrgScript.create_junk_file a repo file_index file_size config =
          ([.createCall repo (junk_file_name config file_index),
            .getCall repo (junk_file_name config file_index),
            .updateCall repo (junk_file_name config file_index) sha],
           .ok (.failed ⟨repo, file_index, file_size⟩))) ∧
      (∀ e, a.updateRes = .error e → e.isGithub = false →
        OrgScript.create_junk_file a repo file_index file_size config =
          ([.createCall repo (junk_file_name config file_index),
            .getCall repo (junk_file_name config file_index),
            .updateCall repo (junk_file_name config file_index) sha],
           .error e))) ∧
    (∀ e, a.getRes = .error e →
      (e.isGithub = true →
        OrgScript.create_junk_file a repo file_index file_size config =
          ([.createCall repo (junk_file_name config file_index),
            .getCall repo (junk_file_name config file_index)],
           .ok (.failed ⟨repo, file_index, file_size⟩))) ∧
      (e.isGithub = false →
        OrgScript.create_junk_file a repo file_index file_size config =
          ([.createCall repo (junk_file_name config file_index),
            .getCall repo (junk_file_name config file_index)],
           .error e))) := by
  obtain ⟨cr, gr, ur⟩ := a
  dsimp only at h
  subst h
  constructor
  · intro sha hsha
    dsimp only at hsha
    subst hsha
    refine ⟨fun hupd => ?_, fun e hupd hg => ?_, fun e hupd hg => ?_⟩ <;>
      dsimp only at hupd <;> subst hupd
    · rfl
    · simp [OrgScript.create_junk_file, hg]
    · simp [OrgScript.create_junk_file, hg]
  · intro e hget
    dsimp only at hget
    subst hget
    refine ⟨fun hg => ?_, fun hg => ?_⟩ <;>
      simp [OrgScript.create_junk_file, hg]

/-- Witness for `c3_conflict_compensation`: a concrete conflict whose
compensating update succeeds. -/
theorem c3_conflict_compensation_witness :
    OrgScript.create_junk_file ⟨.error (.gh 409), .ok "sha0", .ok ()⟩ 3 1 2 [] =
      ([.createCall 3 (junk_file_name [] 1), .getCall 3 (junk_file_name [] 1),
        .updateCall 3 (junk_file_name [] 1) "sha0"], .ok .success) :=
  ((c3_conflict_compensation ⟨.error (.gh 409), .ok "sha0", .ok ()⟩ 3 1 2 []
    rfl).1 "sha0" rfl).1 rfl

/-- Counterexample to claim C3 as stated: a conflict whose compensating
update fails by raising a non-`GithubException`.  The claim requires the
record `(repo, file_index, file_size)` of the operation to be returned for
the failure list whenever the update attempt fails; instead the
exception escapes `create_junk_file` and no record is produced. -/
theorem c3_counterexample :
    OrgScript.create_junk_file attempt409updThrows 0 1 2 [] =
      ([.createCall 0 "junk-1.txt", .getCall 0 "junk-1.txt",
        .updateCall 0 "junk-1.txt" "sha0"], .error (.generic false)) ∧
    (OrgScript.create_junk_file attempt409updThrows 0 1 2 []).2 ≠
      .ok (.failed ⟨0, 1, 2⟩) := ⟨rfl, by decide⟩

/-- Every record in the failure list collected by the file loop of the
dispatcher comes from an attempted index and is exactly the record of a file
attempt that returned failure. -/
theorem run_files_mem (env : OrgScript.RepoEnv) (rh file_size : Nat)
    (config : Config) (slow_mode : Bool) (idxs : List Nat) (t : JTask)
    (h : t ∈ (OrgScript.run_files env rh file_size config slow_mode idxs).2.1) :
    t.repo = rh ∧ t.file_index ∈ idxs ∧ t.file_size = file_size ∧
    (OrgScript.create_junk_file (env.attempt t.file_index) rh t.file_index
      file_size config).2 = .ok (.failed t) := by
  induction idxs with
  | nil => simp [OrgScript.run_files] at h
  | cons i rest ih =>
    rw [OrgScript.run_files] at h
    rcases hc : OrgScript.create_junk_file (env.attempt i) rh i file_size config
      with ⟨ev, r⟩
    rw [hc] at h
    cases r with
    | error e => simp at h
    | ok res =>
      dsimp only at h
      cases res with
      | success =>
        simp only [List.nil_append] at h
        obtain ⟨h1, h2, h3, h4⟩ := ih h
        exact ⟨h1, List.mem_cons_of_mem _ h2, h3, h4⟩
      | failed t2 =>
        simp only [List.singleton_append, List.mem_cons] at h
        rcases h with h0 | h0
        · subst h0
          have hshape := cjf_ok_shape (env.attempt i) rh i file_size config
            (.failed t) (by rw [hc])
          rcases hshape with h5 | h5
          · cases h5
          · have ht : t = ⟨rh, i, file_size⟩ := by injection h5
            subst ht
            refine ⟨rfl, List.mem_cons_self _ _, rfl, ?_⟩
            rw [hc]
        · obtain ⟨h1, h2, h3, h4⟩ := ih h0
          exact ⟨h1, List.mem_cons_of_mem _ h2, h3, h4⟩

/-- Claim C4 as amended: every remote failure that `create_junk_file`
handles is converted into the record `(repo, file_index, file_size)` of
the operation — a non-exceptional return is `True` or exactly that record,
and everything in the failure list of the dispatcher is the record of an
attempt that actually returned failure.  An exception escapes
`create_junk_file` only when the create call reported a conflict and the
compensating read or update raised a non-`GithubException`; such an
exception is caught by the catch-all handler of `process_repo` (so it never
propagates past the dispatcher), but the affected operation is dropped
from the returned list instead of being converted to a data value. -/
theorem c4_failure_conversion :
    (∀ (a : AttemptSpec) (repo file_index file_size : Nat) (config : Config)
        (res : CjfResult),
      (OrgScript.create_junk_file a repo file_index file_size config).2 =
        .ok res →
      res = .success ∨ res = .failed ⟨repo, file_index, file_size⟩) ∧
    (∀ (a : AttemptSpec) (repo file_index file_size : Nat) (config : Config)
        (e : PyErr),
      (OrgScript.create_junk_file a repo file_index file_size config).2 =
        .error e →
      a.createRes = .error (.gh 409) ∧ e.isGithub = false) ∧
    (∀ (repo_index num_files file_size : Nat) (env : OrgScript.RepoEnv)
        (config : Config) (slow_mode : Bool) (rh : Nat),
      env.createRepoRes = .ok rh →
      ∀ t ∈ (OrgScript.process_repo repo_index num_files file_size env config
        slow_mode).2,
        t.repo = rh ∧ 1 ≤ t.file_index ∧ t.file_index ≤ num_files ∧
        t.file_size = file_size ∧
        (OrgScript.create_junk_file (env.attempt t.file_index) rh t.file_index
          file_size config).2 = .ok (.failed t)) := by
  refine ⟨fun a r fi fs cfg res h => cjf_ok_shape a r fi fs cfg res h,
    fun a r fi fs cfg e h => cjf_error_shape a r fi fs cfg e h,
    fun ri nf fs env cfg slow rh hrepo t ht => ?_⟩
  unfold OrgScript.process_repo at ht
  rw [hrepo] at ht
  dsimp only at ht
  by_cases hw : OrgScript.max_workers_files slow nf = 0
  · rw [if_pos hw] at ht
    simp at ht
  · rw [if_neg hw] at ht
    dsimp only at ht
    obtain ⟨h1, h2, h3, h4⟩ := run_files_mem env rh fs cfg slow _ t ht
    rw [List.mem_range'_1] at h2
    exact ⟨h1, h2.1, by omega, h3, h4⟩

/-- Witness for `c4_failure_conversion`: its first part applied to a
concrete status-500 failure, whose return is the failure record. -/
theorem c4_failure_conversion_witness :
    CjfResult.failed ⟨3, 1, 2⟩ = .success ∨
    CjfResult.failed ⟨3, 1, 2⟩ = CjfResult.failed ⟨3, 1, 2⟩ :=
  c4_failure_conversion.1 attempt500 3 1 2 [] (.failed ⟨3, 1, 2⟩) rfl

/-- Counterexample to claim C4 as stated: a batch of one operation whose
create call reports a conflict and whose compensating `get_contents`
raises a non-`GithubException`.  The remote item operation fails, yet
the dispatcher returns an empty failure list — the failure was not
converted into a data value returned to the caller (the exception was
swallowed by the catch-all handler of `process_repo`). -/
theorem c4_counterexample :
    OrgScript.process_repo 1 1 3 ⟨.ok 7, fun _ => attempt409getThrows⟩ []
      false =
      ([.createRepoCall "junk-repo-1", .createCall 7 "junk-1.txt",
        .getCall 7 "junk-1.txt"], []) ∧
    (OrgScript.process_repo 1 1 3 ⟨.ok 7, fun _ => attempt409getThrows⟩ []
      false).2 ≠ [⟨7, 1, 3⟩] := ⟨rfl, by decide⟩

/-- Claim C6 as amended: for an empty batch (N = 0) the dispatcher of the
org script returns an empty failure list, triggers no remote item calls
and still attempts container creation, in both modes, surfacing no error
to its caller (in fast mode `ThreadPoolExecutor(max_workers=0)` raises
`ValueError`, but the catch-all of `process_repo` swallows it).  The repo
script behaves the same way in slow mode; in fast mode, however, its
`ThreadPoolExecutor(max_workers=0)` construction sits outside every
`try`, so the `ValueError` propagates out of `main`. -/
theorem c6_empty_batch :
    (∀ (repo_index file_size : Nat) (env : OrgScript.RepoEnv)
        (config : Config) (slow_mode : Bool),
      OrgScript.process_repo repo_index 0 file_size env config slow_mode =
        ([.createRepoCall (repo_name config repo_index)], [])) ∧
    (∀ (attempt : Nat → AttemptSpec) (rh file_size : Nat) (config : Config),
      RepoScript.main_files attempt rh 0 file_size config true = .ok []) ∧
    (∀ (attempt : Nat → AttemptSpec) (rh file_size : Nat) (config : Config),
      RepoScript.main_files attempt rh 0 file_size config false =
        .error .valueError) := by
  refine ⟨fun ri fs env cfg slow => ?_, fun att rh fs cfg => rfl,
    fun att rh fs cfg => rfl⟩
  obtain ⟨cr, attf⟩ := env
  cases cr with
  | error e => rfl
  | ok rh => cases slow with
    | true => rfl
    | false => rfl

/-- Counterexample to claim C6 as stated: in the repo script in fast
mode, an empty batch does surface an error to the caller — the
`ThreadPoolExecutor(max_workers=0)` construction raises `ValueError`,
which propagates out of `main` instead of an empty, error-free return. -/
theorem c6_counterexample :
    RepoScript.main_files (fun _ => attemptOk) 0 0 3 [] false =
      .error .valueError ∧
    RepoScript.main_files (fun _ => attemptOk) 0 0 3 [] false ≠ .ok [] :=
  ⟨rfl, by decide⟩

/-- When every create call of the listed indices succeeds, the
file loop of the dispatcher performs exactly one create call per index, in
order, collects no failures and lets no exception escape. -/
theorem run_files_all_ok (env : OrgScript.RepoEnv) (rh file_size : Nat)
    (config : Config) (slow_mode : Bool) (idxs : List Nat)
    (hok : ∀ i ∈ idxs, (env.attempt i).createRes = .ok ()) :
    OrgScript.run_files env rh file_size config slow_mode idxs =
      ((idxs.map (fun i => Ev.createCall rh (junk_file_name config i) ::
        (if slow_mode then [Ev.sleep 1] else []))).flatten, [], none) := by
  induction idxs with
  | nil => rfl
  | cons i rest ih =>
    rw [OrgScript.run_files]
    rw [cjf_create_ok (env.attempt i) rh i file_size config
      (hok i (List.mem_cons_self _ _))]
    rw [ih (fun j hj => hok j (List.mem_cons_of_mem _ hj))]
    simp

/-- Claim C7: for every N ≥ 0, when container creation succeeds and no
remote item call fails, the dispatcher returns an empty failure list and
performs exactly N remote item-creation calls, one per operation index
1..N (in fast mode with N = 0 the pool construction fails and is caught,
still yielding zero item calls and an empty list). -/
theorem c7_zero_failures (repo_index num_files file_size : Nat)
    (env : OrgScript.RepoEnv) (config : Config) (slow_mode : Bool) (rh : Nat)
    (hrepo : env.createRepoRes = .ok rh)
    (hok : ∀ i, 1 ≤ i → i ≤ num_files → (env.attempt i).createRes = .ok ()) :
    OrgScript.process_repo repo_index num_files file_size env config
      slow_mode =
      (.createRepoCall (repo_name config repo_index) ::
        ((List.range' 1 num_files).map (fun i =>
          Ev.createCall rh (junk_file_name config i) ::
            (if slow_mode then [Ev.sleep 1] else []))).flatten,
       []) := by
  unfold OrgScript.process_repo
  rw [hrepo]
  dsimp only
  by_cases hw : OrgScript.max_workers_files slow_mode num_files = 0
  · rw [if_pos hw]
    have hn : num_files = 0 := by
      unfold OrgScript.max_workers_files at hw
      cases slow_mode <;> simp_all
    subst hn
    rfl
  · rw [if_neg hw]
    rw [run_files_all_ok env rh file_size config slow_mode _
      (fun i hi => by
        rw [List.mem_range'_1] at hi
        exact hok i hi.1 (by omega))]

/-- Witness for `c7_zero_failures`: a concrete all-success batch of two
operations in fast mode. -/
theorem c7_zero_failures_witness :
    OrgScript.process_repo 1 2 3 ⟨.ok 7, fun _ => attemptOk⟩ [] false =
      (.createRepoCall (repo_name [] 1) ::
        ((List.range' 1 2).map (fun i =>
          Ev.createCall 7 (junk_file_name [] i) ::
            (if false then [Ev.sleep 1] else []))).flatten,
       []) :=
  c7_zero_failures 1 2 3 ⟨.ok 7, fun _ => attemptOk⟩ [] false 7 rfl
    (fun _ _ _ => rfl)

/-- The trace of one retry round is the concatenation, in list order, of
one `create_junk_file` attempt per task (preceded in slow mode by the
one-second throttle sleep). -/
theorem retry_go_trace (specs : Nat → AttemptSpec) (config : Config)
    (slow_mode : Bool) :
    ∀ (tasks : List JTask) (k : Nat) (tr : List Ev) (out : List JTask),
      OrgScript.retry_go specs config slow_mode k tasks = (tr, .ok out) →
      tr = (tasks.mapIdx (fun j t =>
        (if slow_mode then [Ev.sleep 1] else []) ++
          (OrgScript.create_junk_file (specs (k + j)) t.repo t.file_index
            t.file_size config).1)).flatten := by
  intro tasks
  induction tasks with
  | nil =>
    intro k tr out h
    rw [OrgScript.retry_go] at h
    simp only [Prod.mk.injEq] at h
    obtain ⟨h1, h2⟩ := h
    subst h1
    rfl
  | cons t rest ih =>
    intro k tr out h
    rw [OrgScript.retry_go] at h
    rcases hc : OrgScript.create_junk_file (specs k) t.repo t.file_index
      t.file_size config with ⟨ev, r⟩
    rw [hc] at h
    cases r with
    | error e => simp at h
    | ok res =>
      dsimp only at h
      rcases hr : OrgScript.retry_go specs config slow_mode (k + 1) rest
        with ⟨ev2, r2⟩
      rw [hr] at h
      cases r2 with
      | error e => simp at h
      | ok ns =>
        dsimp only at h
        simp only [Prod.mk.injEq] at h
        obtain ⟨h1, _⟩ := h
        subst h1
        rw [List.mapIdx_cons, List.flatten_cons]
        have he := ih (k + 1) ev2 ns hr
        simp only [show ∀ i, k + 1 + i = k + (i + 1) from fun i => by omega]
          at he
        rw [he]
        simp only [Nat.add_zero, hc, List.append_assoc]

/-- Claim C8: a retry round attempts each operation of the incoming
failure set exactly once, strictly sequentially and in the order of the
set — the event trace of the round is the in-order concatenation of one
single-operation attempt per listed task. -/
theorem c8_sequential_retry (specs : Nat → AttemptSpec)
    (failed_tasks : List JTask) (config : Config) (slow_mode : Bool)
    (tr : List Ev) (out : List JTask)
    (h : OrgScript.retry_failed_files specs failed_tasks config slow_mode =
      (tr, .ok out)) :
    tr = (failed_tasks.mapIdx (fun k t =>
      (if slow_mode then [Ev.sleep 1] else []) ++
        (OrgScript.create_junk_file (specs k) t.repo t.file_index t.file_size
          config).1)).flatten := by
  have := retry_go_trace specs config slow_mode failed_tasks 0 tr out h
  simpa using this

/-- Witness for `c8_sequential_retry`: a concrete two-task round whose
trace is one create call per task, in order. -/
theorem c8_sequential_retry_witness :
    [Ev.createCall 0 "junk-1.txt", Ev.createCall 0 "junk-2.txt"] =
      (([⟨0, 1, 2⟩, ⟨0, 2, 2⟩] : List JTask).mapIdx (fun k t =>
        (if false then [Ev.sleep 1] else []) ++
          (OrgScript.create_junk_file ((fun _ => attemptOk) k) t.repo
            t.file_index t.file_size []).1)).flatten :=
  c8_sequential_retry (fun _ => attemptOk) [⟨0, 1, 2⟩, ⟨0, 2, 2⟩] [] false
    [Ev.createCall 0 "junk-1.txt", Ev.createCall 0 "junk-2.txt"] [] rfl

/-- The failure list a retry round returns is a sublist (by record
identity) of the list it was given. -/
theorem retry_go_sublist (specs : Nat → AttemptSpec) (config : Config)
    (slow_mode : Bool) :
    ∀ (tasks : List JTask) (k : Nat) (tr : List Ev) (out : List JTask),
      OrgScript.retry_go specs config slow_mode k tasks = (tr, .ok out) →
      List.Sublist out tasks := by
  intro tasks
  induction tasks with
  | nil =>
    intro k tr out h
    rw [OrgScript.retry_go] at h
    simp only [Prod.mk.injEq] at h
    rcases h with ⟨_, h2⟩
    cases h2
    exact List.Sublist.refl _
  | cons t rest ih =>
    intro k tr out h
    rw [OrgScript.retry_go] at h
    rcases hc : OrgScript.create_junk_file (specs k) t.repo t.file_index
      t.file_size config with ⟨ev, r⟩
    rw [hc] at h
    cases r with
    | error e => simp at h
    | ok res =>
      dsimp only at h
      rcases hr : OrgScript.retry_go specs config slow_mode (k + 1) rest
        with ⟨ev2, r2⟩
      rw [hr] at h
      cases r2 with
      | error e => simp at h
      | ok ns =>
        dsimp only at h
        simp only [Prod.mk.injEq] at h
        obtain ⟨_, h2⟩ := h
        cases res with
        | success =>
          simp only [List.nil_append] at h2
          cases h2
          exact List.Sublist.cons t (ih (k + 1) ev2 out hr)
        | failed t2 =>
          have hshape := cjf_ok_shape (specs k) t.repo t.file_index
            t.file_size config (.failed t2) (by rw [hc])
          rcases hshape with h5 | h5
          · cases h5
          · have ht : t2 = ⟨t.repo, t.file_index, t.file_size⟩ := by
              injection h5
            subst ht
            simp only [List.singleton_append] at h2
            cases h2
            exact List.Sublist.cons₂ t (ih (k + 1) ev2 ns hr)

/-- Claim C10: each retry round is shrinking and identity-preserving —
the failure list `retry_failed_files` returns (when no exception escapes
the round) is a sublist of its input, because `create_junk_file`, on
failure, returns exactly the `(repo, file_index, file_size)` triple of
the operation it was asked to attempt. -/
theorem c10_round_shrinking :
    (∀ (specs : Nat → AttemptSpec) (failed_tasks : List JTask)
        (config : Config) (slow_mode : Bool) (tr : List Ev) (out : List JTask),
      OrgScript.retry_failed_files specs failed_tasks config slow_mode =
        (tr, .ok out) →
      List.Sublist out failed_tasks) ∧
    (∀ (a : AttemptSpec) (repo file_index file_size : Nat) (config : Config)
        (t : JTask),
      (OrgScript.create_junk_file a repo file_index file_size config).2 =
        .ok (.failed t) →
      t = ⟨repo, file_index, file_size⟩) := by
  constructor
  · intro specs failed_tasks config slow_mode tr out h
    exact retry_go_sublist specs config slow_mode failed_tasks 0 tr out h
  · intro a repo file_index file_size config t h
    rcases cjf_ok_shape a repo file_index file_size config (.failed t) h
      with h5 | h5
    · cases h5
    · injection h5

/-- Witness for `c10_round_shrinking`: a concrete round in which one of
two tasks fails again, yielding a strict sublist of the input. -/
theorem c10_round_shrinking_witness :
    List.Sublist [(⟨0, 2, 2⟩ : JTask)] [⟨0, 1, 2⟩, ⟨0, 2, 2⟩] :=
  c10_round_shrinking.1
    (fun k => if k = 0 then attemptOk else attempt500)
    [⟨0, 1, 2⟩, ⟨0, 2, 2⟩] [] false
    [Ev.createCall 0 "junk-1.txt", Ev.createCall 0 "junk-2.txt"]
    [⟨0, 2, 2⟩] rfl

/-- Invariant of the retry loop of `main`: when the loop body is entered
with a non-empty failure list and a history of non-empty round results,
and it terminates normally, then (i) it either emptied the set or used
up all its remaining iterations, (ii) only the final executed round can
have produced an empty set (the loop stops immediately on emptiness),
(iii, iv) round counting is monotone, and (v) the `main`-level sleeps
are exactly one `RETRY_DELAY` per executed round, except that an
emptying final round adds none. -/
theorem main_retry_go_spec (specs : Nat → Nat → AttemptSpec) (config : Config)
    (slow_mode : Bool) :
    ∀ (fuel attempt : Nat) (fs : List JTask) (sleeps : List Nat)
      (hist : List (List JTask)) (res : OrgScript.RetryOutcome),
      fs ≠ [] → (∀ l ∈ hist, l ≠ []) →
      OrgScript.main_retry_go specs config slow_mode fuel attempt fs sleeps
        hist = .ok res →
      (res.remaining = [] ∨ res.rounds.length = hist.length + fuel) ∧
      (∀ l ∈ res.rounds.dropLast, l ≠ []) ∧
      hist.length ≤ res.rounds.length ∧
      (res.remaining = [] → hist.length < res.rounds.length) ∧
      res.sleeps = sleeps ++ List.replicate (res.rounds.length - hist.length -
        (if res.remaining = [] then 1 else 0)) OrgScript.RETRY_DELAY := by
  intro fuel
  induction fuel with
  | zero =>
    intro attempt fs sleeps hist res hfs hh h
    rw [OrgScript.main_retry_go] at h
    injection h with h2
    subst h2
    refine ⟨Or.inr (by simp), ?_, le_refl _, fun hemp => absurd hemp hfs, ?_⟩
    · intro l hl
      exact hh l (List.dropLast_subset _ hl)
    · simp [hfs]
  | succ fuel ih =>
    intro attempt fs sleeps hist res hfs hh h
    rw [OrgScript.main_retry_go] at h
    rcases hrr : (OrgScript.retry_failed_files (specs attempt) fs config
      slow_mode).2 with e | fs2
    · rw [hrr] at h
      cases h
    · rw [hrr] at h
      dsimp only at h
      by_cases h2 : fs2 = []
      · rw [if_pos h2] at h
        injection h with h3
        subst h3
        subst h2
        refine ⟨Or.inl rfl, ?_, by simp, fun _ => by simp, ?_⟩
        · intro l hl
          rw [List.dropLast_concat] at hl
          exact hh l hl
        · simp
      · rw [if_neg h2] at h
        have hh2 : ∀ l ∈ hist ++ [fs2], l ≠ [] := by
          intro l hl
          rcases List.mem_append.mp hl with hl2 | hl2
          · exact hh l hl2
          · rw [List.mem_singleton] at hl2
            subst hl2
            exact h2
        obtain ⟨A, B, C, D, E⟩ := ih (attempt + 1) fs2
          (sleeps ++ [OrgScript.RETRY_DELAY]) (hist ++ [fs2]) res h2 hh2 h
        simp only [List.length_append, List.length_singleton] at A C D E
        refine ⟨?_, B, by omega, fun hemp => by have := D hemp; omega, ?_⟩
        · rcases A with hA | hA
          · exact Or.inl hA
          · exact Or.inr (by omega)
        · have hR : res.rounds.length - hist.length -
              (if res.remaining = [] then 1 else 0) =
              (res.rounds.length - (hist.length + 1) -
                (if res.remaining = [] then 1 else 0)) + 1 := by
            by_cases hrem : res.remaining = []
            · have := D hrem
              simp only [if_pos hrem]
              omega
            · simp only [if_neg hrem]
              omega
          rw [hR, E, List.replicate_succ]
          simp

/-- Claim C1: whenever the global retry loop of `main` completes, either
the remaining failure set is empty, or exactly `MAX_RETRIES` = 3 rounds
were executed and the remaining set is what gets reported as permanently
failed (a print, not an exception); and the loop stops immediately once
a round leaves the set empty — an empty round result can only be the
last executed round. -/
theorem c1_coordinator_rounds (specs : Nat → Nat → AttemptSpec)
    (config : Config) (slow_mode : Bool) (global_failed_files : List JTask)
    (res : OrgScript.RetryOutcome)
    (h : OrgScript.main_retry specs config slow_mode global_failed_files =
      .ok res) :
    (res.remaining = [] ∨ res.rounds.length = OrgScript.MAX_RETRIES) ∧
    (∀ l ∈ res.rounds.dropLast, l ≠ []) := by
  unfold OrgScript.main_retry at h
  by_cases hfs : global_failed_files = []
  · rw [if_pos hfs] at h
    injection h with h2
    subst h2
    exact ⟨Or.inl rfl, by simp⟩
  · rw [if_neg hfs] at h
    obtain ⟨A, B, -, -, -⟩ := main_retry_go_spec specs config slow_mode
      OrgScript.MAX_RETRIES 0 global_failed_files [OrgScript.RETRY_DELAY] []
      res hfs (by simp) h
    exact ⟨by simpa using A, B⟩

/-- Witness for `c1_coordinator_rounds`: the concrete always-failing run
`res500`, which executes exactly 3 rounds, none of them empty. -/
theorem c1_coordinator_rounds_witness :
    (res500.remaining = [] ∨ res500.rounds.length = OrgScript.MAX_RETRIES) ∧
    (∀ l ∈ res500.rounds.dropLast, l ≠ []) :=
  c1_coordinator_rounds (fun _ _ => attempt500) [] false [⟨0, 1, 1⟩] res500
    rfl

/-- Claim C5 as amended: with an empty incoming failure set the retry
section of `main` performs no waiting and no rounds; with a non-empty
set it sleeps `RETRY_DELAY` = 5 once before the first round and once
after every round that leaves the set non-empty — including the final
round, so a run that never empties the set sleeps `rounds + 1` times
(the claim, which forbids a delay after the final round, does not hold). -/
theorem c5_inter_round_delays (specs : Nat → Nat → AttemptSpec)
    (config : Config) (slow_mode : Bool) (global_failed_files : List JTask)
    (res : OrgScript.RetryOutcome)
    (h : OrgScript.main_retry specs config slow_mode global_failed_files =
      .ok res) :
    (global_failed_files = [] → res = ⟨[], [], []⟩) ∧
    (global_failed_files ≠ [] → res.sleeps = List.replicate
      (if res.remaining = [] then res.rounds.length
       else res.rounds.length + 1) OrgScript.RETRY_DELAY) := by
  constructor
  · intro hfs
    unfold OrgScript.main_retry at h
    rw [if_pos hfs] at h
    injection h with h2
    exact h2.symm
  · intro hfs
    unfold OrgScript.main_retry at h
    rw [if_neg hfs] at h
    obtain ⟨-, -, -, D, E⟩ := main_retry_go_spec specs config slow_mode
      OrgScript.MAX_RETRIES 0 global_failed_files [OrgScript.RETRY_DELAY] []
      res hfs (by simp) h
    simp only [List.length_nil, Nat.sub_zero] at E
    by_cases hrem : res.remaining = []
    · have hpos := D hrem
      simp only [List.length_nil] at hpos
      rw [E]
      simp only [if_pos hrem]
      have hR : res.rounds.length = (res.rounds.length - 1) + 1 := by omega
      rw [hR, List.replicate_succ]
      simp [hR.symm]
    · rw [E]
      simp only [if_neg hrem]
      rw [List.replicate_succ]
      simp

/-- Witness for `c5_inter_round_delays`: the always-failing run `res500`
sleeps 4 = rounds + 1 times. -/
theorem c5_inter_round_delays_witness :
    res500.sleeps = List.replicate
      (if res500.remaining = [] then res500.rounds.length
       else res500.rounds.length + 1) OrgScript.RETRY_DELAY :=
  (c5_inter_round_delays (fun _ _ => attempt500) [] false [⟨0, 1, 1⟩] res500
    rfl).2 (by decide)

/-- Counterexample to claim C5 as stated: a run whose three rounds all
leave the set non-empty performs four `RETRY_DELAY` sleeps at the level
of `main` — one before the first round, one between consecutive rounds,
and one more after the final round — whereas the claim allows only
three (none after the final round). -/
theorem c5_counterexample :
    OrgScript.main_retry (fun _ _ => attempt500) [] false [⟨0, 1, 1⟩] =
      .ok res500 ∧
    res500.rounds.length = 3 ∧
    res500.sleeps.length = 4 ∧
    res500.sleeps.length ≠ 3 := ⟨rfl, rfl, rfl, by decide⟩
